import Mathlib

/-!
Verification development for the DNA Sample Manager repository.

The definitions below are shallow embeddings of the tube-position and
volume-consistency subsystem: the Flask route handlers and ORM models in
src/dna_sample_manager/app.py, and the bulk reimport script
reimport_tubes_boxes.py.  Machine floats (µL volumes, ng/µL
concentrations) are modelled as exact rationals; Python float literals
appearing in the code (0.25) are exactly representable, so the rational
model agrees with the float code on every threshold comparison the
theorems discuss.  Dates are abstracted to opaque numeric values: a date
string in a request is modelled as absent, malformed, or parsed, which is
all the control flow ever inspects.
-/

namespace DnaSampleManager

/-- Derived tube status values (strings Empty / Critical / Low / Available
in the Python code). -/
inductive Status where
  | Empty
  | Critical
  | Low
  | Available
deriving DecidableEq, Repr

/-- Translation of Tube.get_status (app.py).  The Python code reads:
if current_volume is None or current_volume <= 0: Empty; elif
current_volume < 10: Critical; elif initial_volume and current_volume <
initial_volume * 0.25: Low; else Available.  Python truthiness of the
float initial_volume means it is present and nonzero, and the float
literal 0.25 is exactly 1/4. -/
def get_status (current_volume initial_volume : Option ℚ) : Status :=
  match current_volume with
  | none => Status.Empty
  | some cv =>
    if cv ≤ 0 then Status.Empty
    else if cv < 10 then Status.Critical
    else
      match initial_volume with
      | some iv => if iv ≠ 0 ∧ cv < iv * (1 / 4) then Status.Low else Status.Available
      | none => Status.Available

/-- Status thresholds exactly as the specification words them: Empty if
current_volume ≤ 0 or unset; Critical if 0 < current_volume < 10; Low
when current_volume ≥ 10, initial_volume is known and current_volume is
below 25% of initial_volume; Available otherwise. -/
def spec_status (current_volume initial_volume : Option ℚ) : Status :=
  match current_volume with
  | none => Status.Empty
  | some cv =>
    if cv ≤ 0 then Status.Empty
    else if cv < 10 then Status.Critical
    else
      match initial_volume with
      | some iv => if cv < iv * (1 / 4) then Status.Low else Status.Available
      | none => Status.Available

/-- C2: the derived status equals the specification thresholds for every
volume pair, and in particular current_volume=5, initial_volume=100 is
Critical while current_volume=20, initial_volume=100 is Low. -/
theorem get_status_matches_spec_thresholds :
    (∀ cv iv : Option ℚ, get_status cv iv = spec_status cv iv) ∧
    get_status (some 5) (some 100) = Status.Critical ∧
    get_status (some 20) (some 100) = Status.Low := by
  refine ⟨?_, ?_, ?_⟩
  · intro cv iv
    cases cv with
    | none => rfl
    | some cv =>
      cases iv with
      | none => rfl
      | some iv =>
        simp only [get_status, spec_status]
        split_ifs with h1 h2 h3 h4 h5 <;> try rfl
        · exact absurd h3.2 h4
        · rcases eq_or_ne iv 0 with hz | hz
          · subst hz
            norm_num at h5
            exact absurd (le_of_lt h5) h1
          · exact absurd ⟨hz, h5⟩ h3
  · norm_num [get_status]
  · norm_num [get_status]

/-- SQL comparison under three-valued logic as SQLAlchemy emits it: a
WHERE clause comparison involving NULL is not satisfied. -/
def sql_lt (a b : Option ℚ) : Bool :=
  match a, b with
  | some x, some y => decide (x < y)
  | _, _ => false

/-- SQL non-strict comparison; NULL on either side is not satisfied. -/
def sql_le (a b : Option ℚ) : Bool :=
  match a, b with
  | some x, some y => decide (x ≤ y)
  | _, _ => false

/-- Translation of the status branch of _build_tubes_query (app.py):
Empty is current_volume IS NULL OR current_volume <= 0; Critical is
current_volume > 0 AND current_volume < 10; Low is current_volume >= 10
AND initial_volume IS NOT NULL AND current_volume < initial_volume *
0.25; Available is current_volume >= 10 AND (initial_volume IS NULL OR
current_volume >= initial_volume * 0.25). -/
def status_filter (status : Status) (cv iv : Option ℚ) : Bool :=
  match status with
  | Status.Empty => cv.isNone || sql_le cv (some 0)
  | Status.Critical => sql_lt (some 0) cv && sql_lt cv (some 10)
  | Status.Low =>
      sql_le (some 10) cv && !iv.isNone && sql_lt cv (iv.map (fun x => x * (1 / 4)))
  | Status.Available =>
      sql_le (some 10) cv && (iv.isNone || sql_le (iv.map (fun x => x * (1 / 4))) cv)

/-- C7: the query-level status filter of _build_tubes_query selects a
tube exactly when the recomputed per-read status Tube.get_status of its
(current_volume, initial_volume) equals the requested status, including
when initial_volume is NULL or zero. -/
theorem status_filter_equiv_get_status :
    ∀ (s : Status) (cv iv : Option ℚ),
      status_filter s cv iv = true ↔ get_status cv iv = s := by
  intro s cv iv
  cases s <;> cases cv <;> cases iv <;>
      simp only [status_filter, sql_lt, sql_le, get_status, Option.isNone, Option.map,
        Bool.or_eq_true, Bool.and_eq_true, Bool.not_eq_true', decide_eq_true_eq,
        decide_eq_false_iff_not] <;>
    constructor
  all_goals intro h
  all_goals try simp_all
  all_goals try (obtain ⟨h1, h2⟩ := h)
  all_goals try (split_ifs <;> first | rfl | linarith)
  all_goals try (split_ifs at h <;> simp_all)
  rename_i cv0 iv0 hcv0 hcv10 himp
  rcases eq_or_ne iv0 0 with hz | hz
  · rw [hz]
    linarith
  · exact himp hz

/-- Python str.strip on the character list: leading and trailing
whitespace removed.  Defined by structural recursion so that concrete
runs reduce inside the kernel. -/
def trim_chars (cs : List Char) : List Char :=
  ((cs.dropWhile Char.isWhitespace).reverse.dropWhile Char.isWhitespace).reverse

/-- Python str.strip. -/
def py_strip (s : String) : String :=
  String.mk (trim_chars s.toList)

/-- Python str.upper (the inputs of interest are ASCII). -/
def py_upper (s : String) : String :=
  String.mk (s.toList.map Char.toUpper)

/-- Translation of parse_position_v (reimport_tubes_boxes.py): strip and
uppercase the input, accept exactly one letter between A and I mapping to
rows 1..9, and return no position otherwise. -/
def parse_position_v (letter : String) : Option Int :=
  if py_strip letter = "" then none
  else
    match (py_upper (py_strip letter)).toList with
    | [ch] =>
        if 'A' ≤ ch ∧ ch ≤ 'I' then some ((ch.toNat : Int) - ('A'.toNat : Int) + 1)
        else none
    | _ => none

/-- Digit-sequence value used by the integer parser; empty sequences are
rejected by the caller. -/
def nat_of_digits : List Char → Nat → Option Nat
  | [], acc => some acc
  | c :: cs, acc =>
      if c.isDigit then nat_of_digits cs (acc * 10 + (c.toNat - 48)) else none

/-- Translation of parse_position_h (reimport_tubes_boxes.py):
int(value.strip()) on an optionally signed digit string, with any parse
failure returning no position. -/
def parse_position_h (value : String) : Option Int :=
  match (py_strip value).toList with
  | [] => none
  | '-' :: [] => none
  | '-' :: rest => (nat_of_digits rest 0).map (fun n => -(n : Int))
  | '+' :: [] => none
  | '+' :: rest => (nat_of_digits rest 0).map (fun n => (n : Int))
  | cs => (nat_of_digits cs 0).map (fun n => (n : Int))

/-- Row letter exactly as Tube.get_position_display renders it: chr(64 +
row) for rows up to 26, and the decimal row string beyond that. -/
def row_display (row : Int) : String :=
  if row ≤ 26 then String.singleton (Char.ofNat (64 + row).toNat) else toString row

/-- Translation of Tube.get_position_display (app.py); Python truthiness
means a missing or zero coordinate yields no display string. -/
def get_position_display (position_row position_col : Option Int) : Option String :=
  match position_row, position_col with
  | some r, some c =>
      if r ≠ 0 ∧ c ≠ 0 then some (row_display r ++ toString c) else none
  | _, _ => none

/-- Combined display string for a set position, the displayPosition of
the specification: row letter followed by the column number. -/
def display_position (row col : Int) : String :=
  row_display row ++ toString col

/-- Spec-level parsePosition(letter, numberText) assembled from the two
source parsers, recovering a (row, column) pair when both parts parse. -/
def parse_position (letterPart numberPart : String) : Option (Int × Int) :=
  match parse_position_v letterPart, parse_position_h numberPart with
  | some r, some c => some (r, c)
  | _, _ => none

theorem parse_v_row_display_aux :
    ∀ n : Nat, n < 9 → parse_position_v (row_display ((n : Int) + 1)) = some ((n : Int) + 1) := by
  decide

theorem parse_h_column_aux :
    ∀ n : Nat, n < 99 → parse_position_h (toString ((n : Int) + 1)) = some ((n : Int) + 1) := by
  decide

/-- C5 counterexample: row 10 is displayed as the letter J (chr(74)), but
parse_position_v accepts only A..I, so parsing the displayed position of
(row=10, col=1) returns no position instead of recovering (10, 1). -/
theorem display_parse_round_trip_fails_at_row_ten :
    display_position 10 1 = "J1" ∧
    row_display 10 = "J" ∧
    parse_position "J" "1" = none := by
  refine ⟨by decide, by decide, by decide⟩

/-- C5 (amended): displayPosition and parsePosition round-trip on the row
range the parser accepts, rows 1..9, for every column 1..99; rows 10..26
display as letters J..Z that parse_position_v rejects. -/
theorem display_parse_round_trip (r c : Int)
    (hr1 : 1 ≤ r) (hr9 : r ≤ 9) (hc1 : 1 ≤ c) (hc99 : c ≤ 99) :
    parse_position (row_display r) (toString c) = some (r, c) ∧
    display_position r c = row_display r ++ toString c := by
  obtain ⟨n, rfl⟩ : ∃ n : Nat, r = (n : Int) + 1 := ⟨(r - 1).toNat, by omega⟩
  obtain ⟨m, rfl⟩ : ∃ m : Nat, c = (m : Int) + 1 := ⟨(c - 1).toNat, by omega⟩
  have hn : n < 9 := by omega
  have hm : m < 99 := by omega
  refine ⟨?_, rfl⟩
  unfold parse_position
  rw [parse_v_row_display_aux n hn, parse_h_column_aux m hm]

/-- Witness for the amended C5 round-trip at row 3, column 47. -/
theorem display_parse_round_trip_witness :
    parse_position (row_display 3) (toString (47 : Int)) = some (3, 47) ∧
    display_position 3 47 = row_display 3 ++ toString (47 : Int) :=
  display_parse_round_trip 3 47 (by norm_num) (by norm_num) (by norm_num) (by norm_num)

/-- Opaque date values; a request-supplied date string is modelled as
absent, malformed, or parsed to one of these. -/
abbrev DateVal := Nat

/-- ORM record for Individual (app.py). -/
structure Individual where
  id : Nat
  individual_id : Option String
  aliases : Option String
  family_id : Option String
  sex : Option Int
  phenotype : Option String
  projects : Option String
  other_family_codes : Option String
  notes : Option String
deriving DecidableEq, Repr

/-- ORM record for Sample (app.py). -/
structure Sample where
  id : Nat
  sample_id : Option String
  individual_id : Option Nat
  sample_type : Option String
  arrival_date : Option DateVal
  notes : Option String
deriving DecidableEq, Repr

/-- ORM record for Box (app.py). -/
structure Box where
  id : Nat
  name : Option String
  box_type : String
  freezer : Option String
  notes : Option String
deriving DecidableEq, Repr

/-- ORM record for Tube (app.py); volumes and concentration are µL / ng
per µL floats modelled as rationals. -/
structure Tube where
  id : Nat
  barcode : String
  sample_id : Option Nat
  box_id : Option Nat
  position_row : Option Int
  position_col : Option Int
  concentration : Option ℚ
  quality : Option String
  initial_volume : Option ℚ
  current_volume : Option ℚ
  source : Option String
  tube_type : String
  notes : Option String
deriving DecidableEq, Repr

/-- ORM record for Usage (app.py). -/
structure Usage where
  id : Nat
  tube_id : Option Nat
  user_id : Option Nat
  user_name : Option String
  date_out : Option DateVal
  date_return : Option DateVal
  volume_taken : Option ℚ
  purpose : Option String
  notes : Option String
deriving DecidableEq, Repr

/-- The persistent store, with a single autoincrement counter standing in
for the per-table SQLite rowid counters. -/
structure DB where
  individuals : List Individual
  samples : List Sample
  tubes : List Tube
  boxes : List Box
  usages : List Usage
  next_id : Nat
deriving DecidableEq, Repr

/-- Typed failures of the route handlers: each constructor stands for one
distinct error response the Python code returns. -/
inductive ApiError where
  | BarcodeExists
  | IndividualIdExists
  | SampleIdExists
  | NotFound
  | HasUsages
  | HasTubes
  | HasSamples
  | InvalidAmount
  | InsufficientVolume
  | InvalidDate
deriving DecidableEq, Repr

/-- Request body of POST /api/tubes; data.get(key) of an absent key is
None, and tube_type defaults to stock. -/
structure TubeCreateReq where
  barcode : String
  sample_id : Option Nat
  box_id : Option Nat
  position_row : Option Int
  position_col : Option Int
  concentration : Option ℚ
  quality : Option String
  initial_volume : Option ℚ
  current_volume : Option ℚ
  source : Option String
  tube_type : Option String
  notes : Option String
deriving DecidableEq, Repr

/-- Translation of create_tube (app.py): reject a duplicate barcode, then
store every field exactly as given, with no placement or volume checks. -/
def create_tube (db : DB) (req : TubeCreateReq) : Except ApiError (DB × Tube) :=
  if db.tubes.any (fun t => t.barcode == req.barcode) then
    Except.error ApiError.BarcodeExists
  else
    let tube : Tube :=
      { id := db.next_id, barcode := req.barcode, sample_id := req.sample_id,
        box_id := req.box_id, position_row := req.position_row,
        position_col := req.position_col, concentration := req.concentration,
        quality := req.quality, initial_volume := req.initial_volume,
        current_volume := req.current_volume, source := req.source,
        tube_type := req.tube_type.getD "stock", notes := req.notes }
    Except.ok ({ db with tubes := db.tubes ++ [tube], next_id := db.next_id + 1 }, tube)

/-- Request body of PUT /api/tubes/id; an outer none means the key is
absent from the JSON body and the field is left untouched. -/
structure TubeUpdateReq where
  barcode : Option String
  sample_id : Option (Option Nat)
  box_id : Option (Option Nat)
  position_row : Option (Option Int)
  position_col : Option (Option Int)
  concentration : Option (Option ℚ)
  quality : Option (Option String)
  initial_volume : Option (Option ℚ)
  current_volume : Option (Option ℚ)
  source : Option (Option String)
  tube_type : Option String
  notes : Option (Option String)
deriving DecidableEq, Repr

/-- Field-by-field setattr loop of update_tube. -/
def apply_tube_update (req : TubeUpdateReq) (t : Tube) : Tube :=
  { t with
    barcode := req.barcode.getD t.barcode,
    sample_id := req.sample_id.getD t.sample_id,
    box_id := req.box_id.getD t.box_id,
    position_row := req.position_row.getD t.position_row,
    position_col := req.position_col.getD t.position_col,
    concentration := req.concentration.getD t.concentration,
    quality := req.quality.getD t.quality,
    initial_volume := req.initial_volume.getD t.initial_volume,
    current_volume := req.current_volume.getD t.current_volume,
    source := req.source.getD t.source,
    tube_type := req.tube_type.getD t.tube_type,
    notes := req.notes.getD t.notes }

/-- Translation of update_tube (app.py): 404 when the id is unknown, then
setattr for every provided key, with no validation of any field. -/
def update_tube (db : DB) (id : Nat) (req : TubeUpdateReq) : Except ApiError (DB × Tube) :=
  match db.tubes.find? (fun t => t.id == id) with
  | none => Except.error ApiError.NotFound
  | some t =>
      Except.ok
        ({ db with
            tubes := db.tubes.map (fun u => if u.id == id then apply_tube_update req u else u) },
          apply_tube_update req t)

/-- Translation of delete_tube (app.py): blocked while usage history
exists (the usages relationship is nonempty). -/
def delete_tube (db : DB) (id : Nat) : Except ApiError DB :=
  match db.tubes.find? (fun t => t.id == id) with
  | none => Except.error ApiError.NotFound
  | some t =>
      if db.usages.any (fun u => u.tube_id == some t.id) then
        Except.error ApiError.HasUsages
      else
        Except.ok { db with tubes := db.tubes.filter (fun u => u.id != id) }

/-- Request body of POST /api/boxes; box_type defaults to stock. -/
structure BoxCreateReq where
  name : Option String
  box_type : Option String
  freezer : Option String
  notes : Option String
deriving DecidableEq, Repr

/-- Translation of create_box (app.py): no validation at all. -/
def create_box (db : DB) (req : BoxCreateReq) : DB × Box :=
  let box : Box :=
    { id := db.next_id, name := req.name, box_type := req.box_type.getD "stock",
      freezer := req.freezer, notes := req.notes }
  ({ db with boxes := db.boxes ++ [box], next_id := db.next_id + 1 }, box)

/-- Request body of PUT /api/boxes/id. -/
structure BoxUpdateReq where
  name : Option (Option String)
  box_type : Option String
  freezer : Option (Option String)
  notes : Option (Option String)
deriving DecidableEq, Repr

/-- Translation of update_box (app.py). -/
def update_box (db : DB) (id : Nat) (req : BoxUpdateReq) : Except ApiError (DB × Box) :=
  match db.boxes.find? (fun b => b.id == id) with
  | none => Except.error ApiError.NotFound
  | some b =>
      let upd := fun (x : Box) =>
        { x with name := req.name.getD x.name, box_type := req.box_type.getD x.box_type,
                 freezer := req.freezer.getD x.freezer, notes := req.notes.getD x.notes }
      Except.ok
        ({ db with boxes := db.boxes.map (fun x => if x.id == id then upd x else x) }, upd b)

/-- Translation of delete_box (app.py): blocked while the box contains
tubes (the tubes relationship is nonempty). -/
def delete_box (db : DB) (id : Nat) : Except ApiError DB :=
  match db.boxes.find? (fun b => b.id == id) with
  | none => Except.error ApiError.NotFound
  | some b =>
      if db.tubes.any (fun t => t.box_id == some b.id) then
        Except.error ApiError.HasTubes
      else
        Except.ok { db with boxes := db.boxes.filter (fun x => x.id != id) }

/-- Request body of POST /api/individuals. -/
structure IndividualCreateReq where
  individual_id : Option String
  aliases : Option String
  family_id : Option String
  sex : Option Int
  phenotype : Option String
  projects : Option String
  other_family_codes : Option String
  notes : Option String
deriving DecidableEq, Repr

/-- Translation of create_individual (app.py): reject a duplicate
individual_id, then store the fields as given. -/
def create_individual (db : DB) (req : IndividualCreateReq) :
    Except ApiError (DB × Individual) :=
  if db.individuals.any (fun i => i.individual_id == req.individual_id) then
    Except.error ApiError.IndividualIdExists
  else
    let ind : Individual :=
      { id := db.next_id, individual_id := req.individual_id, aliases := req.aliases,
        family_id := req.family_id, sex := req.sex, phenotype := req.phenotype,
        projects := req.projects, other_family_codes := req.other_family_codes,
        notes := req.notes }
    Except.ok ({ db with individuals := db.individuals ++ [ind], next_id := db.next_id + 1 }, ind)

/-- Request body of PUT /api/individuals/id. -/
structure IndividualUpdateReq where
  individual_id : Option (Option String)
  aliases : Option (Option String)
  family_id : Option (Option String)
  sex : Option (Option Int)
  phenotype : Option (Option String)
  projects : Option (Option String)
  other_family_codes : Option (Option String)
  notes : Option (Option String)
deriving DecidableEq, Repr

/-- Translation of update_individual (app.py). -/
def update_individual (db : DB) (id : Nat) (req : IndividualUpdateReq) :
    Except ApiError (DB × Individual) :=
  match db.individuals.find? (fun i => i.id == id) with
  | none => Except.error ApiError.NotFound
  | some i =>
      let upd := fun (x : Individual) =>
        { x with individual_id := req.individual_id.getD x.individual_id,
                 aliases := req.aliases.getD x.aliases,
                 family_id := req.family_id.getD x.family_id, sex := req.sex.getD x.sex,
                 phenotype := req.phenotype.getD x.phenotype,
                 projects := req.projects.getD x.projects,
                 other_family_codes := req.other_family_codes.getD x.other_family_codes,
                 notes := req.notes.getD x.notes }
      Except.ok
        ({ db with
            individuals := db.individuals.map (fun x => if x.id == id then upd x else x) },
          upd i)

/-- Translation of delete_individual (app.py): blocked while samples
reference the individual. -/
def delete_individual (db : DB) (id : Nat) : Except ApiError DB :=
  match db.individuals.find? (fun i => i.id == id) with
  | none => Except.error ApiError.NotFound
  | some i =>
      if db.samples.any (fun s => s.individual_id == some i.id) then
        Except.error ApiError.HasSamples
      else
        Except.ok { db with individuals := db.individuals.filter (fun x => x.id != id) }

/-- Request body of POST /api/samples; sample_code is the preferred alias
of sample_id (Python or-chain with empty strings falsy), and the arrival
date is absent, malformed, or parsed. -/
structure SampleCreateReq where
  sample_code : Option String
  sample_id : Option String
  individual_id : Option Nat
  sample_type : Option String
  arrival_date : Option (Option DateVal)
  notes : Option String
deriving DecidableEq, Repr

/-- Python expression a or b over optional strings: an empty string is
falsy and falls through. -/
def py_or_string (a b : Option String) : Option String :=
  match a with
  | some s => if s = "" then b else some s
  | none => b

/-- Translation of create_sample (app.py): duplicate sample code
rejected, malformed arrival_date rejected, fields stored as given. -/
def create_sample (db : DB) (req : SampleCreateReq) : Except ApiError (DB × Sample) :=
  if db.samples.any
      (fun s => s.sample_id == py_or_string req.sample_code req.sample_id) then
    Except.error ApiError.SampleIdExists
  else
    match req.arrival_date with
    | some none => Except.error ApiError.InvalidDate
    | ad =>
        Except.ok
          ({ db with
              samples := db.samples ++
                [⟨db.next_id, py_or_string req.sample_code req.sample_id,
                  req.individual_id, req.sample_type, ad.getD none, req.notes⟩],
              next_id := db.next_id + 1 },
            ⟨db.next_id, py_or_string req.sample_code req.sample_id, req.individual_id,
              req.sample_type, ad.getD none, req.notes⟩)

/-- Request body of PUT /api/samples/id. -/
structure SampleUpdateReq where
  sample_code : Option String
  sample_id : Option (Option String)
  individual_id : Option (Option Nat)
  sample_type : Option (Option String)
  arrival_date : Option (Option DateVal)
  notes : Option (Option String)
deriving DecidableEq, Repr

/-- Translation of update_sample (app.py): sample_code then the setattr
loop, and a provided-but-malformed arrival_date aborts the request before
commit. -/
def update_sample (db : DB) (id : Nat) (req : SampleUpdateReq) :
    Except ApiError (DB × Sample) :=
  match db.samples.find? (fun s => s.id == id) with
  | none => Except.error ApiError.NotFound
  | some s =>
      if req.arrival_date == some none then Except.error ApiError.InvalidDate
      else
        let upd := fun (x : Sample) =>
          let x1 := { x with sample_id :=
            match req.sample_code with | some c => some c | none => x.sample_id }
          { x1 with sample_id := req.sample_id.getD x1.sample_id,
                    individual_id := req.individual_id.getD x1.individual_id,
                    sample_type := req.sample_type.getD x1.sample_type,
                    arrival_date :=
                      match req.arrival_date with
                      | some (some d) => some d
                      | _ => x1.arrival_date,
                    notes := req.notes.getD x1.notes }
        Except.ok
          ({ db with samples := db.samples.map (fun x => if x.id == id then upd x else x) },
            upd s)

/-- Translation of delete_sample (app.py): blocked while tubes reference
the sample. -/
def delete_sample (db : DB) (id : Nat) : Except ApiError DB :=
  match db.samples.find? (fun s => s.id == id) with
  | none => Except.error ApiError.NotFound
  | some s =>
      if db.tubes.any (fun t => t.sample_id == some s.id) then
        Except.error ApiError.HasTubes
      else
        Except.ok { db with samples := db.samples.filter (fun x => x.id != id) }

/-- Request body of POST /api/usages.  volume_taken is already numeric (a
non-numeric string is rejected with its own 400 before any branch the
claims discuss); date_out follows the absent / malformed / parsed date
model. -/
structure UsageReq where
  tube_id : Option Nat
  user_name : Option String
  date_out : Option (Option DateVal)
  volume_taken : Option ℚ
  purpose : Option String
  notes : Option String
deriving DecidableEq, Repr

/-- First validation of create_usage: a provided volume_taken that is not
positive is rejected. -/
def bad_volume_taken : Option ℚ → Bool
  | some v => decide (v ≤ 0)
  | none => false

/-- Tube resolution of create_usage; Python truthiness of
data.get(tube_id) means id 0 is treated like an absent id. -/
def usage_lookup_tube (db : DB) : Option Nat → Except ApiError (Option Tube)
  | some tid =>
      if tid = 0 then Except.ok none
      else
        match db.tubes.find? (fun t => t.id == tid) with
        | some t => Except.ok (some t)
        | none => Except.error ApiError.NotFound
  | none => Except.ok none

/-- Sufficiency check of create_usage: only when a tube was resolved, a
nonzero volume_taken was provided, and the current volume is known. -/
def usage_insufficient : Option Tube → Option ℚ → Bool
  | some t, some v =>
      if v ≠ 0 then
        match t.current_volume with
        | some cv => decide (cv < v)
        | none => false
      else false
  | _, _ => false

/-- Date resolution of create_usage: absent dates default to today,
malformed dates are rejected. -/
def usage_date : Option (Option DateVal) → DateVal → Option DateVal
  | none, today => some today
  | some none, _ => none
  | some (some d), _ => some d

/-- In-place decrement of the referenced tube, mirroring
tube.current_volume -= volume_taken under the same guard as the Python
code. -/
def usage_decrement (tubes : List Tube) (tube? : Option Tube) (vt : Option ℚ) : List Tube :=
  match tube?, vt with
  | some t, some v =>
      if v ≠ 0 ∧ t.current_volume.isSome then
        tubes.map (fun u =>
          if u.id == t.id then
            { u with current_volume := u.current_volume.map (fun cv => cv - v) }
          else u)
      else tubes
  | _, _ => tubes

/-- Translation of create_usage (app.py): validate volume_taken, resolve
the tube, check sufficiency against a known current volume, resolve the
date, then insert the Usage and decrement the tube volume in the same
transaction. -/
def create_usage (db : DB) (today : DateVal) (req : UsageReq) :
    Except ApiError (DB × Usage) :=
  if bad_volume_taken req.volume_taken then Except.error ApiError.InvalidAmount
  else
    match usage_lookup_tube db req.tube_id with
    | Except.error e => Except.error e
    | Except.ok tube? =>
        if usage_insufficient tube? req.volume_taken then
          Except.error ApiError.InsufficientVolume
        else
          match usage_date req.date_out today with
          | none => Except.error ApiError.InvalidDate
          | some d =>
              let usage : Usage :=
                { id := db.next_id, tube_id := req.tube_id, user_id := none,
                  user_name := req.user_name, date_out := some d, date_return := none,
                  volume_taken := req.volume_taken, purpose := req.purpose,
                  notes := req.notes }
              Except.ok
                ({ db with tubes := usage_decrement db.tubes tube? req.volume_taken,
                           usages := db.usages ++ [usage], next_id := db.next_id + 1 },
                  usage)

/-- C1: for a tube with a known current volume, create_usage rejects a
non-positive requested amount as InvalidAmount and an amount exceeding
the current volume as InsufficientVolume, leaving the store untouched (an
error result carries no mutation); on success the tube volume drops by
exactly the requested amount and stays non-negative, and the Usage record
carries the requested amount. -/
theorem create_usage_withdraw_checks (db : DB) (today : DateVal) (req : UsageReq)
    (tid : Nat) (t : Tube) (cv a : ℚ)
    (hreq : req.tube_id = some tid) (htid : tid ≠ 0)
    (hfind : db.tubes.find? (fun u => u.id == tid) = some t)
    (hcv : t.current_volume = some cv)
    (ha : req.volume_taken = some a) :
    (a ≤ 0 → create_usage db today req = Except.error ApiError.InvalidAmount) ∧
    (0 < a → cv < a → create_usage db today req = Except.error ApiError.InsufficientVolume) ∧
    (0 < a → a ≤ cv → req.date_out ≠ some none →
      0 ≤ cv - a ∧
      ∃ db2 usage, create_usage db today req = Except.ok (db2, usage) ∧
        usage.volume_taken = some a ∧
        { t with current_volume := some (cv - a) } ∈ db2.tubes ∧
        db2.usages = db.usages ++ [usage]) := by
  refine ⟨?_, ?_, ?_⟩
  · intro h
    simp [create_usage, bad_volume_taken, ha, h]
  · intro h1 h2
    have hbad : bad_volume_taken req.volume_taken = false := by
      simp [bad_volume_taken, ha]
      linarith
    have hlook : usage_lookup_tube db req.tube_id = Except.ok (some t) := by
      simp [usage_lookup_tube, hreq, htid, hfind]
    have hins : usage_insufficient (some t) req.volume_taken = true := by
      simp [usage_insufficient, ha, hcv]
      constructor
      · intro hz
        exact absurd hz (by linarith)
      · exact h2
    simp [create_usage, hbad, hlook, hins]
  · intro h1 h2 h3
    have hbad : bad_volume_taken req.volume_taken = false := by
      simp [bad_volume_taken, ha]
      linarith
    have hlook : usage_lookup_tube db req.tube_id = Except.ok (some t) := by
      simp [usage_lookup_tube, hreq, htid, hfind]
    have hins : usage_insufficient (some t) req.volume_taken = false := by
      simp [usage_insufficient, ha, hcv]
      intro hz
      linarith
    refine ⟨by linarith, ?_⟩
    have hmem : t ∈ db.tubes := List.mem_of_find?_eq_some hfind
    have hid : (t.id == tid) = true := by
      have := List.find?_some hfind
      simpa using this
    obtain ⟨d, hd⟩ : ∃ d, usage_date req.date_out today = some d := by
      rcases hdo : req.date_out with _ | od
      · exact ⟨today, rfl⟩
      · rcases od with _ | d0
        · exact absurd hdo h3
        · exact ⟨d0, rfl⟩
    have hrun : create_usage db today req = Except.ok
        (⟨db.individuals, db.samples, usage_decrement db.tubes (some t) req.volume_taken,
          db.boxes,
          db.usages ++ [⟨db.next_id, req.tube_id, none, req.user_name, some d, none,
            req.volume_taken, req.purpose, req.notes⟩],
          db.next_id + 1⟩,
         ⟨db.next_id, req.tube_id, none, req.user_name, some d, none, req.volume_taken,
          req.purpose, req.notes⟩) := by
      simp [create_usage, hbad, hlook, hins, hd]
    refine ⟨_, _, hrun, ha, ?_, rfl⟩
    simp only [usage_decrement, ha, hcv, Option.isSome_some, and_true]
    rw [if_pos (by intro hz; rw [hz] at h1; exact lt_irrefl 0 h1 : a ≠ 0)]
    have hfun : { t with current_volume := some (cv - a) } =
        (fun u => if u.id == t.id then
          { u with current_volume := u.current_volume.map (fun x => x - a) } else u) t := by
      simp [hcv]
    rw [hfun]
    exact List.mem_map_of_mem _ hmem

/-- Concrete tube with known volumes used by witnesses. -/
def wTube : Tube :=
  { id := 1, barcode := "TB100", sample_id := none, box_id := none,
    position_row := some 1, position_col := some 1, concentration := none,
    quality := none, initial_volume := some 100, current_volume := some 10,
    source := none, tube_type := "stock", notes := none }

/-- Concrete store holding just wTube. -/
def wDB : DB :=
  { individuals := [], samples := [], tubes := [wTube], boxes := [], usages := [],
    next_id := 2 }

/-- Concrete withdrawal request of 4 µL against wTube. -/
def wUsageReq : UsageReq :=
  { tube_id := some 1, user_name := some "u", date_out := none, volume_taken := some 4,
    purpose := none, notes := none }

/-- Witness for C1 at the concrete store: withdrawing 4 µL from the tube
holding 10 µL succeeds and leaves 6 µL. -/
theorem create_usage_withdraw_checks_witness :
    (0:ℚ) ≤ 10 - 4 ∧
    ∃ db2 usage, create_usage wDB 0 wUsageReq = Except.ok (db2, usage) ∧
      usage.volume_taken = some 4 ∧
      { wTube with current_volume := some (10 - 4) } ∈ db2.tubes ∧
      db2.usages = wDB.usages ++ [usage] :=
  (create_usage_withdraw_checks wDB 0 wUsageReq 1 wTube 10 4 rfl (by decide) rfl rfl
    rfl).2.2 (by norm_num) (by norm_num) (by decide)

/-- C10: when the referenced tube's current_volume is unset, create_usage
applies no sufficiency check: every positive requested amount succeeds,
the Usage record keeps the requested volume_taken, and the tube list is
untouched, so the current_volume stays unset. -/
theorem create_usage_unset_volume_skips_check (db : DB) (today : DateVal) (req : UsageReq)
    (tid : Nat) (t : Tube) (a : ℚ)
    (hreq : req.tube_id = some tid) (htid : tid ≠ 0)
    (hfind : db.tubes.find? (fun u => u.id == tid) = some t)
    (hcv : t.current_volume = none)
    (ha : req.volume_taken = some a) (hpos : 0 < a)
    (hdate : req.date_out ≠ some none) :
    ∃ db2 usage, create_usage db today req = Except.ok (db2, usage) ∧
      usage.volume_taken = some a ∧ db2.tubes = db.tubes ∧
      db2.usages = db.usages ++ [usage] := by
  have hbad : bad_volume_taken req.volume_taken = false := by
    simp [bad_volume_taken, ha]
    linarith
  have hlook : usage_lookup_tube db req.tube_id = Except.ok (some t) := by
    simp [usage_lookup_tube, hreq, htid, hfind]
  have hins : usage_insufficient (some t) req.volume_taken = false := by
    simp [usage_insufficient, ha, hcv]
  obtain ⟨d, hd⟩ : ∃ d, usage_date req.date_out today = some d := by
    rcases hdo : req.date_out with _ | od
    · exact ⟨today, rfl⟩
    · rcases od with _ | d0
      · exact absurd hdo hdate
      · exact ⟨d0, rfl⟩
  have hrun : create_usage db today req = Except.ok
      (⟨db.individuals, db.samples, usage_decrement db.tubes (some t) req.volume_taken,
        db.boxes,
        db.usages ++ [⟨db.next_id, req.tube_id, none, req.user_name, some d, none,
          req.volume_taken, req.purpose, req.notes⟩],
        db.next_id + 1⟩,
       ⟨db.next_id, req.tube_id, none, req.user_name, some d, none, req.volume_taken,
        req.purpose, req.notes⟩) := by
    simp [create_usage, hbad, hlook, hins, hd]
  refine ⟨_, _, hrun, ha, ?_, rfl⟩
  simp [usage_decrement, ha, hcv]

/-- Concrete tube with an unset current volume. -/
def wTubeUnset : Tube :=
  { id := 7, barcode := "TB7", sample_id := none, box_id := none,
    position_row := none, position_col := none, concentration := none,
    quality := none, initial_volume := none, current_volume := none,
    source := none, tube_type := "stock", notes := none }

/-- Concrete store holding just wTubeUnset. -/
def wDBUnset : DB :=
  { individuals := [], samples := [], tubes := [wTubeUnset], boxes := [], usages := [],
    next_id := 8 }

/-- Concrete request withdrawing 1000 µL from the unset-volume tube. -/
def wUsageReqUnset : UsageReq :=
  { tube_id := some 7, user_name := none, date_out := none, volume_taken := some 1000,
    purpose := none, notes := none }

/-- Witness for C10: a 1000 µL request against the unset-volume tube
succeeds without touching the tube list. -/
theorem create_usage_unset_volume_skips_check_witness :
    ∃ db2 usage, create_usage wDBUnset 0 wUsageReqUnset = Except.ok (db2, usage) ∧
      usage.volume_taken = some 1000 ∧ db2.tubes = wDBUnset.tubes ∧
      db2.usages = wDBUnset.usages ++ [usage] :=
  create_usage_unset_volume_skips_check wDBUnset 0 wUsageReqUnset 7 wTubeUnset 1000 rfl
    (by decide) rfl rfl rfl (by norm_num) (by decide)

/-- C9: the public tube create and update handlers perform no placement
validation: with a fresh barcode, create_tube succeeds and stores box,
row and column exactly as given, whatever tubes already occupy that
position and however far outside the 9 by 9 grid the coordinates lie; and
update_tube likewise overwrites the position of any existing tube with
the provided values unconditionally. -/
theorem tube_create_update_no_placement_validation (db : DB) (req : TubeCreateReq)
    (hfresh : ∀ t ∈ db.tubes, t.barcode ≠ req.barcode) :
    (∃ db2 t, create_tube db req = Except.ok (db2, t) ∧
      t.box_id = req.box_id ∧ t.position_row = req.position_row ∧
      t.position_col = req.position_col ∧ t.current_volume = req.current_volume ∧
      t.initial_volume = req.initial_volume ∧ db2.tubes = db.tubes ++ [t]) ∧
    (∀ (id : Nat) (u : TubeUpdateReq) (t : Tube),
      db.tubes.find? (fun x => x.id == id) = some t →
      ∃ db2 t2, update_tube db id u = Except.ok (db2, t2) ∧
        t2.box_id = u.box_id.getD t.box_id ∧
        t2.position_row = u.position_row.getD t.position_row ∧
        t2.position_col = u.position_col.getD t.position_col) := by
  constructor
  · have hany : db.tubes.any (fun t => t.barcode == req.barcode) = false := by
      rw [List.any_eq_false]
      intro t ht
      simpa using hfresh t ht
    refine ⟨⟨db.individuals, db.samples,
      db.tubes ++ [⟨db.next_id, req.barcode, req.sample_id, req.box_id, req.position_row,
        req.position_col, req.concentration, req.quality, req.initial_volume,
        req.current_volume, req.source, req.tube_type.getD "stock", req.notes⟩],
      db.boxes, db.usages, db.next_id + 1⟩,
      ⟨db.next_id, req.barcode, req.sample_id, req.box_id, req.position_row,
        req.position_col, req.concentration, req.quality, req.initial_volume,
        req.current_volume, req.source, req.tube_type.getD "stock", req.notes⟩,
      ?_, rfl, rfl, rfl, rfl, rfl, rfl⟩
    simp [create_tube, hany]
  · intro id u t hfind
    refine ⟨⟨db.individuals, db.samples,
      db.tubes.map (fun x => if x.id == id then apply_tube_update u x else x),
      db.boxes, db.usages, db.next_id⟩, apply_tube_update u t, ?_, rfl, rfl, rfl⟩
    simp [update_tube, hfind]

/-- Tube already occupying position (1,1) of box 5 in the witness store. -/
def wOccupant : Tube :=
  { id := 1, barcode := "OCC1", sample_id := none, box_id := some 5,
    position_row := some 1, position_col := some 1, concentration := none,
    quality := none, initial_volume := none, current_volume := none,
    source := none, tube_type := "stock", notes := none }

/-- Store for the C9 witness: box 5 with position (1,1) taken. -/
def wDBOcc : DB :=
  { individuals := [], samples := [], tubes := [wOccupant],
    boxes := [⟨5, some "B1", "stock", none, none⟩], usages := [], next_id := 2 }

/-- Create request colliding with the occupant and lying far outside the
9 by 9 grid in its row. -/
def wCollideReq : TubeCreateReq :=
  { barcode := "NEW1", sample_id := none, box_id := some 5, position_row := some 1,
    position_col := some 1, concentration := none, quality := none,
    initial_volume := none, current_volume := none, source := none,
    tube_type := none, notes := none }

/-- Witness for C9: creating a second tube at the occupied position
(1,1) of box 5 succeeds and stores the requested values unchanged. -/
theorem tube_create_update_no_placement_validation_witness :
    ∃ db2 t, create_tube wDBOcc wCollideReq = Except.ok (db2, t) ∧
      t.box_id = wCollideReq.box_id ∧ t.position_row = wCollideReq.position_row ∧
      t.position_col = wCollideReq.position_col ∧
      t.current_volume = wCollideReq.current_volume ∧
      t.initial_volume = wCollideReq.initial_volume ∧ db2.tubes = wDBOcc.tubes ++ [t] :=
  (tube_create_update_no_placement_validation wDBOcc wCollideReq
    (by intro t ht; fin_cases ht; decide)).1

/-- Update request that only sets current_volume to 50. -/
def wCvUpdateReq : TubeUpdateReq :=
  { barcode := none, sample_id := none, box_id := none, position_row := none,
    position_col := none, concentration := none, quality := none,
    initial_volume := none, current_volume := some (some 50), source := none,
    tube_type := none, notes := none }

/-- C6 counterexample: PUT /api/tubes/1 with a current_volume key rewrites
the stored volume from 10 to 50 without creating any Usage record, so
usage creation is not the only mutator of current_volume. -/
theorem update_tube_mutates_current_volume :
    wTube.current_volume = some 10 ∧
    (update_tube wDB 1 wCvUpdateReq).toOption.map
      (fun p => (p.1.tubes.map Tube.current_volume, p.1.usages)) = some ([some 50], []) := by
  constructor
  · rfl
  · rfl

/-- Projection of the store onto tube id / current volume pairs. -/
def volumes_view (db : DB) : List (Nat × Option ℚ) :=
  db.tubes.map (fun t => (t.id, t.current_volume))

/-- C6 (amended): create_usage and update_tube with a current_volume key
are the only mutators of an existing tube's current_volume: update_tube
without that key preserves the id-to-volume view, tube create only
appends and delete only removes, and every box, individual and sample
mutation leaves the tube list untouched (list, query and export handlers
only read the store). -/
theorem current_volume_mutators (db : DB) :
    (∀ (id : Nat) (req : TubeUpdateReq) (db2 : DB) (t2 : Tube),
       req.current_volume = none → update_tube db id req = Except.ok (db2, t2) →
       volumes_view db2 = volumes_view db) ∧
    (∀ req db2 t, create_tube db req = Except.ok (db2, t) → db2.tubes = db.tubes ++ [t]) ∧
    (∀ id db2, delete_tube db id = Except.ok db2 → ∀ t ∈ db2.tubes, t ∈ db.tubes) ∧
    (∀ req, (create_box db req).1.tubes = db.tubes) ∧
    (∀ id req db2 b, update_box db id req = Except.ok (db2, b) → db2.tubes = db.tubes) ∧
    (∀ id db2, delete_box db id = Except.ok db2 → db2.tubes = db.tubes) ∧
    (∀ req db2 i, create_individual db req = Except.ok (db2, i) → db2.tubes = db.tubes) ∧
    (∀ id req db2 i, update_individual db id req = Except.ok (db2, i) →
       db2.tubes = db.tubes) ∧
    (∀ id db2, delete_individual db id = Except.ok db2 → db2.tubes = db.tubes) ∧
    (∀ req db2 s, create_sample db req = Except.ok (db2, s) → db2.tubes = db.tubes) ∧
    (∀ id req db2 s, update_sample db id req = Except.ok (db2, s) → db2.tubes = db.tubes) ∧
    (∀ id db2, delete_sample db id = Except.ok db2 → db2.tubes = db.tubes) := by
  refine ⟨?_, ?_, ?_, ?_, ?_, ?_, ?_, ?_, ?_, ?_, ?_, ?_⟩
  · intro id req db2 t2 hnone hok
    unfold update_tube at hok
    cases hfind : db.tubes.find? (fun t => t.id == id) with
    | none => rw [hfind] at hok; cases hok
    | some t =>
        rw [hfind] at hok
        cases hok
        simp only [volumes_view, List.map_map]
        refine List.map_congr_left ?_
        intro x hx
        by_cases hxe : x.id = id <;>
          simp [Function.comp, apply_tube_update, hxe, hnone]
  · intro req db2 t hok
    unfold create_tube at hok
    split at hok
    · cases hok
    · cases hok; rfl
  · intro id db2 hok t ht
    unfold delete_tube at hok
    split at hok
    · cases hok
    · split at hok
      · cases hok
      · cases hok
        exact List.mem_of_mem_filter ht
  · intro req
    rfl
  · intro id req db2 b hok
    unfold update_box at hok
    split at hok
    · cases hok
    · cases hok; rfl
  · intro id db2 hok
    unfold delete_box at hok
    split at hok
    · cases hok
    · split at hok
      · cases hok
      · cases hok; rfl
  · intro req db2 i hok
    unfold create_individual at hok
    split at hok
    · cases hok
    · cases hok; rfl
  · intro id req db2 i hok
    unfold update_individual at hok
    split at hok
    · cases hok
    · cases hok; rfl
  · intro id db2 hok
    unfold delete_individual at hok
    split at hok
    · cases hok
    · split at hok
      · cases hok
      · cases hok; rfl
  · intro req db2 s hok
    unfold create_sample at hok
    split at hok
    · cases hok
    · split at hok
      · cases hok
      · cases hok; rfl
  · intro id req db2 s hok
    unfold update_sample at hok
    split at hok
    · cases hok
    · split at hok
      · cases hok
      · cases hok; rfl
  · intro id db2 hok
    unfold delete_sample at hok
    split at hok
    · cases hok
    · split at hok
      · cases hok
      · cases hok; rfl

/-- Witness for the amended C6 at the concrete store: an update without a
current_volume key preserves the volume view. -/
theorem current_volume_mutators_witness :
    volumes_view
      ⟨wDB.individuals, wDB.samples,
        wDB.tubes.map (fun x => if x.id == 1 then
          apply_tube_update ⟨some "RENAMED", none, none, none, none, none, none, none,
            none, none, none, none⟩ x else x),
        wDB.boxes, wDB.usages, wDB.next_id⟩ = volumes_view wDB :=
  (current_volume_mutators wDB).1 1
    ⟨some "RENAMED", none, none, none, none, none, none, none, none, none, none, none⟩
    _ _ rfl (by simp [update_tube]; rfl)

/-- Value of an all-digit character list read in base 10. -/
def digits_value (cs : List Char) : Nat :=
  cs.foldl (fun acc c => acc * 10 + (c.toNat - 48)) 0

/-- Unsigned decimal number with an optional fractional part, as Python
float() reads the strings the legacy volume columns hold. -/
def parse_unsigned_rational (cs : List Char) : Option ℚ :=
  match cs.splitOn '.' with
  | [ip] =>
      if ip ≠ [] ∧ ip.all Char.isDigit then some ((digits_value ip : ℚ)) else none
  | [ip, fp] =>
      if (ip ≠ [] ∨ fp ≠ []) ∧ ip.all Char.isDigit ∧ fp.all Char.isDigit then
        some ((digits_value ip : ℚ) + (digits_value fp : ℚ) / (10 : ℚ) ^ fp.length)
      else none
  | _ => none

/-- Optionally signed decimal number; anything else is a parse failure. -/
def parse_rational (s : String) : Option ℚ :=
  match (py_strip s).toList with
  | '-' :: cs => (parse_unsigned_rational cs).map (fun q => -q)
  | '+' :: cs => parse_unsigned_rational cs
  | cs => parse_unsigned_rational cs

/-- Translation of parse_volume (reimport_tubes_boxes.py): empty input is
no volume, a leading less-than marker is stripped, a decimal comma
becomes a dot, and an unparseable remainder is no volume. -/
def parse_volume (value : String) : Option ℚ :=
  if py_strip value = "" then none
  else
    parse_rational
      (String.mk
        (((py_strip value).toList.dropWhile (fun c => c = '<')).map
          (fun c => if c = ',' then '.' else c)))

/-- Translation of parse_concentration (reimport_tubes_boxes.py): like
parse_volume but without the less-than marker. -/
def parse_concentration (value : String) : Option ℚ :=
  if py_strip value = "" then none
  else
    parse_rational
      (String.mk ((py_strip value).toList.map (fun c => if c = ',' then '.' else c)))

/-- Translation of build_freezer_info (reimport_tubes_boxes.py). -/
def build_freezer_info (frigo etage : String) : Option String :=
  match (if py_strip frigo ≠ "" then ["Frigo " ++ py_strip frigo] else []) ++
        (if py_strip etage ≠ "" then ["Étage " ++ py_strip etage] else []) with
  | [] => none
  | parts => some (String.intercalate ", " parts)

/-- Translation of build_notes (reimport_tubes_boxes.py). -/
def build_notes (code_alias degrade wga : String) : Option String :=
  match (if py_strip code_alias ≠ "" then ["Alias: " ++ py_strip code_alias] else []) ++
        (if py_strip degrade ≠ "" then ["Dégradé: " ++ py_strip degrade] else []) ++
        (if py_strip wga ≠ "" then ["WGA: " ++ py_strip wga] else []) with
  | [] => none
  | parts => some (String.intercalate "; " parts)

/-- One TSV row of the reimport input, in fixed column order; a column
missing from a short row is the empty string. -/
structure Row where
  barcode : String
  code_principal : String
  code_alias : String
  volume_str : String
  pos_h_str : String
  pos_v_str : String
  frigo : String
  etage : String
  numero : String
  nom_boite : String
  pos_num : String
  type_boite : String
  concentration_str : String
  degrade : String
  tissus : String
  wga : String
deriving DecidableEq, Repr

/-- Box metadata harvested by STEP 5 of the reimport script. -/
structure BoxInfo where
  freezer : Option String
  box_type : String
  numero : String
deriving DecidableEq, Repr

/-- First pass of STEP 5: first occurrence of each non-empty box name
wins its metadata; later rows with the same name do not overwrite. -/
def collect_box_info (rows : List Row) : List (String × BoxInfo) :=
  rows.foldl
    (fun acc row =>
      if py_strip row.nom_boite = "" then acc
      else if acc.any (fun p => p.1 == py_strip row.nom_boite) then acc
      else
        acc ++ [(py_strip row.nom_boite,
          { freezer := build_freezer_info row.frigo row.etage,
            box_type := if py_strip row.type_boite = "" then "stock"
                        else py_strip row.type_boite,
            numero := py_strip row.numero })])
    []

/-- Second pass of STEP 5: create one Box per collected name, flushing
for sequential ids, and remember the name-to-id map. -/
def create_import_boxes : List (String × BoxInfo) → Nat →
    List Box × List (String × Nat) × Nat
  | [], next_id => ([], [], next_id)
  | (name, info) :: rest, next_id =>
      let t := create_import_boxes rest (next_id + 1)
      ({ id := next_id, name := some name, box_type := info.box_type,
         freezer := info.freezer,
         notes := if info.numero = "" then none
                  else some ("N° boîte: " ++ info.numero) } :: t.1,
       (name, next_id) :: t.2.1, t.2.2)

/-- Python rstrip of the dagger disambiguation marker followed by strip,
as the reimport script cleans Code principal. -/
def strip_dagger (s : String) : String :=
  py_strip (String.mk ((s.toList.reverse.dropWhile (fun c => c = '†')).reverse))

/-- Candidate sample codes tried on collision: the clean code itself,
then clean_T1, clean_T2, and so on. -/
def sample_code_candidate (clean : String) (suffix : Nat) : String :=
  if suffix = 0 then clean else clean ++ "_T" ++ toString suffix

/-- Fuelled form of the collision loop; the fuel bound taken.length + 1
always suffices because the candidates are pairwise distinct. -/
def fresh_sample_code_from (taken : List String) (clean : String) :
    Nat → Nat → String
  | 0, suffix => sample_code_candidate clean suffix
  | fuel + 1, suffix =>
      if sample_code_candidate clean suffix ∈ taken then
        fresh_sample_code_from taken clean fuel (suffix + 1)
      else sample_code_candidate clean suffix

/-- Uniqueness-guaranteed sample code of STEP 6 (while loop appending a
numbered suffix until the code is unused). -/
def fresh_sample_code (taken : List String) (clean : String) : String :=
  fresh_sample_code_from taken clean (taken.length + 1) 0

/-- Mutable state of STEP 6 of the reimport script: the growing store
plus the counters and dedup key sets of the loop. -/
structure ImportState where
  boxes : List Box
  box_name_to_id : List (String × Nat)
  tubes : List Tube
  samples : List Sample
  sample_by_individual : List (Nat × Nat)
  sample_by_code : List (String × Nat)
  created : Nat
  skipped_dup_barcode : Nat
  skipped_dup_position : Nat
  skipped_no_barcode : Nat
  linked_to_individual : Nat
  not_linked : Nat
  samples_created : Nat
  samples_reused : Nat
  seen_barcodes : List String
  seen_positions : List (String × String × String)
  next_id : Nat
deriving DecidableEq, Repr

/-- The branch STEP 6 takes for one row. -/
inductive RowOutcome where
  | NoBarcode
  | DupBarcode
  | DupPosition
  | Created
deriving DecidableEq, Repr

/-- Raw position-dedup key of STEP 6: the stripped box name, column text
and row text, compared as strings. -/
def pos_key (row : Row) : String × String × String :=
  (py_strip row.nom_boite, py_strip row.pos_h_str, py_strip row.pos_v_str)

/-- The dedup key only applies when the box name and both raw position
texts are non-empty. -/
def has_pos_key (row : Row) : Bool :=
  (py_strip row.nom_boite != "") && (py_strip row.pos_h_str != "") &&
    (py_strip row.pos_v_str != "")

/-- Individual and sample resolution of STEP 6: clean the dagger marker,
look the individual up, reuse its first sample or create a new one with a
collision-free code, and bump the link counters. -/
def resolve_sample (individual_map : List (String × Nat)) (row : Row)
    (st : ImportState) : Option Nat × ImportState :=
  if py_strip row.code_principal = "" then
    (none, { st with not_linked := st.not_linked + 1 })
  else
    match individual_map.find?
        (fun p => p.1 == strip_dagger (py_strip row.code_principal)) with
    | none => (none, { st with not_linked := st.not_linked + 1 })
    | some p =>
        match st.sample_by_individual.find? (fun q => q.1 == p.2) with
        | some q =>
            (some q.2,
             { st with linked_to_individual := st.linked_to_individual + 1,
                       samples_reused := st.samples_reused + 1 })
        | none =>
            let code := fresh_sample_code (st.sample_by_code.map Prod.fst)
              (strip_dagger (py_strip row.code_principal))
            (some st.next_id,
             { st with
                linked_to_individual := st.linked_to_individual + 1,
                samples_created := st.samples_created + 1,
                samples := st.samples ++
                  [{ id := st.next_id, sample_id := some code, individual_id := some p.2,
                     sample_type := if py_strip row.tissus = "" then none
                                    else some (py_strip row.tissus),
                     arrival_date := none,
                     notes := if py_strip row.code_alias = "" then none
                              else some ("Alias: " ++ py_strip row.code_alias) }],
                sample_by_individual := (p.2, st.next_id) :: st.sample_by_individual,
                sample_by_code := (code, st.next_id) :: st.sample_by_code,
                next_id := st.next_id + 1 })

/-- Tube record STEP 6 constructs: initial volume copied from the parsed
current volume, stock type, parsed position and normalized fields. -/
def mk_import_tube (id : Nat) (barcode : String) (sample_id box_id : Option Nat)
    (row : Row) : Tube :=
  { id := id, barcode := barcode, sample_id := sample_id, box_id := box_id,
    position_row := parse_position_v row.pos_v_str,
    position_col := parse_position_h row.pos_h_str,
    concentration := parse_concentration row.concentration_str,
    quality := if py_strip row.degrade = "" then none else some (py_strip row.degrade),
    initial_volume := parse_volume row.volume_str,
    current_volume := parse_volume row.volume_str,
    source := if py_strip row.tissus = "" then none else some (py_strip row.tissus),
    tube_type := "stock",
    notes := build_notes row.code_alias row.degrade row.wga }

/-- Record a fresh barcode in the seen set (seen_barcodes.add). -/
def record_barcode (st : ImportState) (b : String) : ImportState :=
  { st with seen_barcodes := b :: st.seen_barcodes }

/-- Record the raw position key in the seen set when the row has one
(seen_positions.add inside the guarded block). -/
def record_pos (st : ImportState) (row : Row) : ImportState :=
  if has_pos_key row then { st with seen_positions := pos_key row :: st.seen_positions }
  else st

/-- Tail of the loop body once every skip check has passed: look the box
up by name, resolve the sample link, and append the constructed tube. -/
def create_row_tube (individual_map : List (String × Nat)) (st : ImportState)
    (row : Row) : ImportState :=
  let box_id :=
    (st.box_name_to_id.find? (fun p => p.1 == py_strip row.nom_boite)).map Prod.snd
  let r := resolve_sample individual_map row st
  { r.2 with
      tubes := r.2.tubes ++ [mk_import_tube r.2.next_id (py_strip row.barcode) r.1
        box_id row],
      created := r.2.created + 1,
      next_id := r.2.next_id + 1 }

/-- One iteration of the STEP 6 loop: skip empty barcodes, skip barcodes
seen in this run, record the barcode, skip raw position keys seen in this
run (recording the barcode does not change the position set, so the test
reads the incoming set), record the key, then resolve the links and
append the new tube. -/
def process_row (individual_map : List (String × Nat)) (st : ImportState)
    (row : Row) : ImportState × RowOutcome :=
  if py_strip row.barcode = "" then
    ({ st with skipped_no_barcode := st.skipped_no_barcode + 1 }, RowOutcome.NoBarcode)
  else if py_strip row.barcode ∈ st.seen_barcodes then
    ({ st with skipped_dup_barcode := st.skipped_dup_barcode + 1 }, RowOutcome.DupBarcode)
  else if has_pos_key row = true ∧ pos_key row ∈ st.seen_positions then
    ({ record_barcode st (py_strip row.barcode) with
        skipped_dup_position := st.skipped_dup_position + 1 },
     RowOutcome.DupPosition)
  else
    (create_row_tube individual_map
      (record_pos (record_barcode st (py_strip row.barcode)) row) row,
     RowOutcome.Created)

/-- The STEP 6 loop over the remaining rows, also returning the branch
taken for each row. -/
def run_rows (individual_map : List (String × Nat)) (st : ImportState) :
    List Row → ImportState × List RowOutcome
  | [] => (st, [])
  | row :: rest =>
      let r := process_row individual_map st row
      let t := run_rows individual_map r.1 rest
      (t.1, r.2 :: t.2)

/-- State entering the STEP 6 loop: boxes already created from the rows
(STEP 5), no tubes (purged in STEP 2), given pre-existing sample maps,
empty counters and dedup sets. -/
def import_initial_state (rows : List Row) (samples0 : List Sample)
    (sample_by_individual0 : List (Nat × Nat)) (sample_by_code0 : List (String × Nat))
    (next_id0 : Nat) : ImportState :=
  let b := create_import_boxes (collect_box_info rows) next_id0
  { boxes := b.1, box_name_to_id := b.2.1, tubes := [], samples := samples0,
    sample_by_individual := sample_by_individual0, sample_by_code := sample_by_code0,
    created := 0, skipped_dup_barcode := 0, skipped_dup_position := 0,
    skipped_no_barcode := 0, linked_to_individual := 0, not_linked := 0,
    samples_created := 0, samples_reused := 0, seen_barcodes := [],
    seen_positions := [], next_id := b.2.2 }

/-- One full import run of reimport_tubes_boxes.main over in-memory rows
(the script purges tubes, boxes and usages first, keeping individuals and
samples), starting here from a store with no pre-existing samples. -/
def import_run (individual_map : List (String × Nat)) (rows : List Row) :
    ImportState × List RowOutcome :=
  run_rows individual_map (import_initial_state rows [] [] [] 1) rows

theorem resolve_sample_frame (im : List (String × Nat)) (row : Row) (st : ImportState) :
    (resolve_sample im row st).2.seen_positions = st.seen_positions ∧
    (resolve_sample im row st).2.seen_barcodes = st.seen_barcodes ∧
    (resolve_sample im row st).2.tubes = st.tubes ∧
    (resolve_sample im row st).2.skipped_dup_barcode = st.skipped_dup_barcode ∧
    (resolve_sample im row st).2.skipped_dup_position = st.skipped_dup_position ∧
    (resolve_sample im row st).2.box_name_to_id = st.box_name_to_id := by
  unfold resolve_sample
  split
  · exact ⟨rfl, rfl, rfl, rfl, rfl, rfl⟩
  · split
    · exact ⟨rfl, rfl, rfl, rfl, rfl, rfl⟩
    · split
      · exact ⟨rfl, rfl, rfl, rfl, rfl, rfl⟩
      · exact ⟨rfl, rfl, rfl, rfl, rfl, rfl⟩


theorem record_pos_frame (st : ImportState) (row : Row) :
    (record_pos st row).seen_barcodes = st.seen_barcodes ∧
    (record_pos st row).tubes = st.tubes ∧
    (record_pos st row).box_name_to_id = st.box_name_to_id := by
  unfold record_pos
  split <;> exact ⟨rfl, rfl, rfl⟩

theorem create_row_tube_frame (im : List (String × Nat)) (st : ImportState) (row : Row) :
    (create_row_tube im st row).seen_positions = st.seen_positions ∧
    (create_row_tube im st row).seen_barcodes = st.seen_barcodes ∧
    (create_row_tube im st row).tubes = st.tubes ++
      [mk_import_tube (resolve_sample im row st).2.next_id (py_strip row.barcode)
        (resolve_sample im row st).1
        ((st.box_name_to_id.find? (fun p => p.1 == py_strip row.nom_boite)).map Prod.snd)
        row] := by
  obtain ⟨h1, h2, h3, h4, h5, h6⟩ := resolve_sample_frame im row st
  simp only [create_row_tube]
  exact ⟨h1, h2, by rw [h3]⟩

theorem process_row_seen_positions (im : List (String × Nat)) (st : ImportState)
    (row : Row) :
    ((process_row im st row).2 = RowOutcome.Created ∧ has_pos_key row = true ∧
       pos_key row ∉ st.seen_positions ∧
       (process_row im st row).1.seen_positions = pos_key row :: st.seen_positions) ∨
    ((process_row im st row).2 = RowOutcome.Created ∧ has_pos_key row = false ∧
       (process_row im st row).1.seen_positions = st.seen_positions) ∨
    ((process_row im st row).2 ≠ RowOutcome.Created ∧
       (process_row im st row).1.seen_positions = st.seen_positions) := by
  unfold process_row
  split_ifs with h1 h2 h3
  · right; right; exact ⟨by simp, rfl⟩
  · right; right; exact ⟨by simp, rfl⟩
  · right; right; exact ⟨by simp, rfl⟩
  · by_cases hk : has_pos_key row = true
    · left
      have hmem : pos_key row ∉ st.seen_positions := fun hm => h3 ⟨hk, hm⟩
      refine ⟨rfl, hk, hmem, ?_⟩
      rw [(create_row_tube_frame im _ row).1]
      simp [record_pos, hk, record_barcode]
    · right; left
      refine ⟨rfl, by simpa using hk, ?_⟩
      rw [(create_row_tube_frame im _ row).1]
      simp [record_pos, hk, record_barcode]

theorem process_row_seen_barcodes (im : List (String × Nat)) (st : ImportState)
    (row : Row) :
    (∀ b ∈ st.seen_barcodes, b ∈ (process_row im st row).1.seen_barcodes) ∧
    ((process_row im st row).2 = RowOutcome.Created →
      py_strip row.barcode ∉ st.seen_barcodes ∧
      py_strip row.barcode ∈ (process_row im st row).1.seen_barcodes) := by
  unfold process_row
  split_ifs with h1 h2 h3
  · exact ⟨fun b hb => hb, by simp⟩
  · exact ⟨fun b hb => hb, by simp⟩
  · exact ⟨fun b hb => List.mem_cons_of_mem _ hb, by simp⟩
  · constructor
    · intro b hb
      rw [(create_row_tube_frame im _ row).2.1, (record_pos_frame _ row).1]
      exact List.mem_cons_of_mem _ hb
    · intro _
      refine ⟨h2, ?_⟩
      rw [(create_row_tube_frame im _ row).2.1, (record_pos_frame _ row).1]
      exact List.mem_cons_self _ _

/-- Raw position keys of the rows the loop creates tubes from, for rows
carrying a key. -/
def created_keys (im : List (String × Nat)) (st : ImportState) :
    List Row → List (String × String × String)
  | [] => []
  | row :: rest =>
      (if (process_row im st row).2 = RowOutcome.Created ∧ has_pos_key row = true then
        [pos_key row] else []) ++ created_keys im (process_row im st row).1 rest

/-- Stripped barcodes of the rows the loop creates tubes from. -/
def created_barcodes (im : List (String × Nat)) (st : ImportState) :
    List Row → List String
  | [] => []
  | row :: rest =>
      (if (process_row im st row).2 = RowOutcome.Created then [py_strip row.barcode]
       else []) ++ created_barcodes im (process_row im st row).1 rest

theorem created_keys_nodup (im : List (String × Nat)) :
    ∀ (rows : List Row) (st : ImportState),
      (created_keys im st rows).Nodup ∧
      ∀ k ∈ created_keys im st rows, k ∉ st.seen_positions := by
  intro rows
  induction rows with
  | nil => intro st; exact ⟨List.nodup_nil, by simp [created_keys]⟩
  | cons row rest ih =>
      intro st
      obtain ⟨ihn, ihm⟩ := ih (process_row im st row).1
      rcases process_row_seen_positions im st row with ⟨ho, hk, hnm, hs⟩ |
        ⟨ho, hk, hs⟩ | ⟨ho, hs⟩
      · have hck : created_keys im st (row :: rest) =
            pos_key row :: created_keys im (process_row im st row).1 rest := by
          simp [created_keys, ho, hk]
        rw [hck]
        constructor
        · rw [List.nodup_cons]
          refine ⟨fun hmem => ?_, ihn⟩
          have := ihm _ hmem
          rw [hs] at this
          exact this (List.mem_cons_self _ _)
        · intro k hkmem
          rcases List.mem_cons.mp hkmem with rfl | hkm
          · exact hnm
          · intro hmem0
            have := ihm _ hkm
            rw [hs] at this
            exact this (List.mem_cons_of_mem _ hmem0)
      · have hck : created_keys im st (row :: rest) =
            created_keys im (process_row im st row).1 rest := by
          simp [created_keys, hk]
        rw [hck]
        refine ⟨ihn, fun k hkm => ?_⟩
        have := ihm _ hkm
        rwa [hs] at this
      · have hck : created_keys im st (row :: rest) =
            created_keys im (process_row im st row).1 rest := by
          simp [created_keys, ho]
        rw [hck]
        refine ⟨ihn, fun k hkm => ?_⟩
        have := ihm _ hkm
        rwa [hs] at this

theorem created_barcodes_nodup (im : List (String × Nat)) :
    ∀ (rows : List Row) (st : ImportState),
      (created_barcodes im st rows).Nodup ∧
      ∀ b ∈ created_barcodes im st rows, b ∉ st.seen_barcodes := by
  intro rows
  induction rows with
  | nil => intro st; exact ⟨List.nodup_nil, by simp [created_barcodes]⟩
  | cons row rest ih =>
      intro st
      obtain ⟨ihn, ihm⟩ := ih (process_row im st row).1
      obtain ⟨hmono, hcr⟩ := process_row_seen_barcodes im st row
      by_cases ho : (process_row im st row).2 = RowOutcome.Created
      · obtain ⟨hnotin, hin⟩ := hcr ho
        have hck : created_barcodes im st (row :: rest) =
            py_strip row.barcode :: created_barcodes im (process_row im st row).1 rest := by
          simp [created_barcodes, ho]
        rw [hck]
        constructor
        · rw [List.nodup_cons]
          exact ⟨fun hmem => ihm _ hmem hin, ihn⟩
        · intro b hbm
          rcases List.mem_cons.mp hbm with rfl | hbm2
          · exact hnotin
          · exact fun hb0 => ihm _ hbm2 (hmono _ hb0)
      · have hck : created_barcodes im st (row :: rest) =
            created_barcodes im (process_row im st row).1 rest := by
          simp [created_barcodes, ho]
        rw [hck]
        exact ⟨ihn, fun b hbm hb0 => ihm _ hbm (hmono _ hb0)⟩

/-- C3 (amended): the duplicate-position policy of one import run is
keep-first on the raw key (box name, column text, row text): tubes are
only ever appended (never overwritten), rows creating tubes have pairwise
distinct raw keys when they carry one, and a row is counted as
DuplicatePosition exactly when its fresh non-empty barcode passes but its
raw key was already seen.  The key is raw text, not the parsed
coordinates, so equal (position_row, position_col) pairs in one box can
still be created from differently written texts. -/
theorem import_position_dedup (im : List (String × Nat)) (rows : List Row) :
    (created_keys im (import_initial_state rows [] [] [] 1) rows).Nodup ∧
    (∀ (st : ImportState) (row : Row),
       (process_row im st row).2 = RowOutcome.DupPosition ↔
         (py_strip row.barcode ≠ "" ∧ py_strip row.barcode ∉ st.seen_barcodes ∧
          has_pos_key row = true ∧ pos_key row ∈ st.seen_positions)) ∧
    (∀ (st : ImportState) (row : Row),
       ((process_row im st row).2 ≠ RowOutcome.Created ∧
          (process_row im st row).1.tubes = st.tubes) ∨
       ((process_row im st row).2 = RowOutcome.Created ∧
          ∃ t, (process_row im st row).1.tubes = st.tubes ++ [t] ∧
            t.barcode = py_strip row.barcode ∧
            t.position_row = parse_position_v row.pos_v_str ∧
            t.position_col = parse_position_h row.pos_h_str ∧
            t.box_id = (st.box_name_to_id.find?
              (fun p => p.1 == py_strip row.nom_boite)).map Prod.snd)) := by
  refine ⟨(created_keys_nodup im rows _).1, ?_, ?_⟩
  · intro st row
    unfold process_row
    split_ifs with h1 h2 h3
    · simp [h1]
    · simp [h2]
    · simp [h1, h2, h3.1, h3.2]
    · constructor
      · intro h
        exact absurd h (by simp)
      · rintro ⟨hb, hnb, hk, hm⟩
        exact absurd ⟨hk, hm⟩ h3
  · intro st row
    unfold process_row
    split_ifs with h1 h2 h3
    · exact Or.inl ⟨by simp, rfl⟩
    · exact Or.inl ⟨by simp, rfl⟩
    · exact Or.inl ⟨by simp, rfl⟩
    · right
      refine ⟨rfl, ?_⟩
      obtain ⟨hsp, hsb, htubes⟩ := create_row_tube_frame im
        (record_pos (record_barcode st (py_strip row.barcode)) row) row
      refine ⟨mk_import_tube
        (resolve_sample im row
          (record_pos (record_barcode st (py_strip row.barcode)) row)).2.next_id
        (py_strip row.barcode)
        (resolve_sample im row
          (record_pos (record_barcode st (py_strip row.barcode)) row)).1
        (((record_pos (record_barcode st (py_strip row.barcode)) row).box_name_to_id.find?
          (fun p => p.1 == py_strip row.nom_boite)).map Prod.snd)
        row, ?_, rfl, rfl, rfl, ?_⟩
      · rw [htubes, (record_pos_frame _ row).2.1]
        rfl
      · show (((record_pos (record_barcode st (py_strip row.barcode))
            row).box_name_to_id.find? (fun p => p.1 == py_strip row.nom_boite)).map
            Prod.snd) = _
        rw [(record_pos_frame _ row).2.2]
        rfl

/-- Row of the reimport TSV with only barcode, box name, raw position
texts and volume set, every other column empty. -/
def simple_row (barcode box pos_h pos_v volume : String) : Row :=
  { barcode := barcode, code_principal := "", code_alias := "", volume_str := volume,
    pos_h_str := pos_h, pos_v_str := pos_v, frigo := "", etage := "", numero := "",
    nom_boite := box, pos_num := "", type_boite := "", concentration_str := "",
    degrade := "", tissus := "", wga := "" }

/-- C3 counterexample: rows X1 at (1, A) and X2 at (1, a) of box B1 have
distinct raw keys, so both are created, yet both parse to position (1, 1)
of the same box: two tubes of one box share a (position_row,
position_col) pair and no DuplicatePosition is counted. -/
theorem import_position_dedup_cex :
    ((import_run [] [simple_row "X1" "B1" "1" "A" "",
        simple_row "X2" "B1" "1" "a" ""]).1.tubes.map
      (fun t => (t.box_id, t.position_row, t.position_col)) =
      [(some 1, some 1, some 1), (some 1, some 1, some 1)]) ∧
    (import_run [] [simple_row "X1" "B1" "1" "A" "",
      simple_row "X2" "B1" "1" "a" ""]).1.skipped_dup_position = 0 :=
  ⟨by decide, by decide⟩

/-- Loop state with the raw key (B1, 1, A) already seen, used to witness
the DuplicatePosition branch. -/
def wImportStPos : ImportState :=
  { boxes := [], box_name_to_id := [], tubes := [], samples := [],
    sample_by_individual := [], sample_by_code := [], created := 0,
    skipped_dup_barcode := 0, skipped_dup_position := 0, skipped_no_barcode := 0,
    linked_to_individual := 0, not_linked := 0, samples_created := 0,
    samples_reused := 0, seen_barcodes := [], seen_positions := [("B1", "1", "A")],
    next_id := 1 }

/-- Witness for the amended C3: a fresh barcode at the already-seen raw
key (B1, 1, A) is rejected as DuplicatePosition. -/
theorem import_position_dedup_witness :
    (process_row [] wImportStPos (simple_row "X9" "B1" "1" "A" "")).2 =
      RowOutcome.DupPosition :=
  ((import_position_dedup [] []).2.1 wImportStPos
    (simple_row "X9" "B1" "1" "A" "")).mpr ⟨by decide, by decide, by decide, by decide⟩

/-- C8 (amended): a row whose stripped non-empty barcode is already in the
seen set only bumps the DuplicateBarcode counter — no tube, no position
recorded, nothing else changes; and one run creates at most one tube per
distinct barcode (the created barcodes are pairwise distinct).  Exactly
one is not guaranteed: a barcode enters the seen set before the position
check, so a first occurrence rejected as DuplicatePosition leaves that
barcode with no tube at all. -/
theorem import_barcode_dedup (im : List (String × Nat)) (rows : List Row) :
    (∀ (st : ImportState) (row : Row),
       py_strip row.barcode ≠ "" → py_strip row.barcode ∈ st.seen_barcodes →
       process_row im st row =
         ({ st with skipped_dup_barcode := st.skipped_dup_barcode + 1 },
          RowOutcome.DupBarcode)) ∧
    (created_barcodes im (import_initial_state rows [] [] [] 1) rows).Nodup := by
  refine ⟨?_, (created_barcodes_nodup im rows _).1⟩
  intro st row h1 h2
  unfold process_row
  rw [if_neg h1, if_pos h2]

/-- C8 counterexample: X1 and X2 are distinct non-empty barcodes, but X2
arrives at the raw key X1 already claimed, is dropped as
DuplicatePosition after its barcode was recorded, and the run creates no
tube for X2: the run does not yield one tube per distinct barcode. -/
theorem import_barcode_dedup_cex :
    ((import_run [] [simple_row "X1" "B1" "1" "A" "",
        simple_row "X2" "B1" "1" "A" ""]).1.tubes.map Tube.barcode = ["X1"]) ∧
    (import_run [] [simple_row "X1" "B1" "1" "A" "",
      simple_row "X2" "B1" "1" "A" ""]).2 =
      [RowOutcome.Created, RowOutcome.DupPosition] ∧
    (import_run [] [simple_row "X1" "B1" "1" "A" "",
      simple_row "X2" "B1" "1" "A" ""]).1.skipped_dup_barcode = 0 :=
  ⟨by decide, by decide, by decide⟩

/-- Loop state with barcode X1 already seen. -/
def wImportStBar : ImportState :=
  { boxes := [], box_name_to_id := [], tubes := [], samples := [],
    sample_by_individual := [], sample_by_code := [], created := 0,
    skipped_dup_barcode := 0, skipped_dup_position := 0, skipped_no_barcode := 0,
    linked_to_individual := 0, not_linked := 0, samples_created := 0,
    samples_reused := 0, seen_barcodes := ["X1"], seen_positions := [],
    next_id := 1 }

/-- Witness for the amended C8: a repeated barcode X1 only bumps the
DuplicateBarcode counter, recording neither tube nor position. -/
theorem import_barcode_dedup_witness :
    process_row [] wImportStBar (simple_row "X1" "B2" "2" "B" "") =
      ({ wImportStBar with
          skipped_dup_barcode := wImportStBar.skipped_dup_barcode + 1 },
       RowOutcome.DupBarcode) :=
  (import_barcode_dedup [] []).1 wImportStBar (simple_row "X1" "B2" "2" "B" "")
    (by decide) (by decide)

/-- The claimed volume invariant on one tube: when both volumes are set,
the current volume is non-negative and at most the initial volume. -/
def tube_volume_ok (t : Tube) : Bool :=
  match t.current_volume, t.initial_volume with
  | some cv, some iv => decide (0 ≤ cv ∧ cv ≤ iv)
  | _, _ => true

theorem process_row_tubes_sublist (im : List (String × Nat)) (st : ImportState)
    (row : Row) :
    (process_row im st row).1.tubes = st.tubes ∨
    ∃ t, (process_row im st row).1.tubes = st.tubes ++ [t] ∧
      t.current_volume = t.initial_volume := by
  unfold process_row
  split_ifs with h1 h2 h3
  · left; rfl
  · left; rfl
  · left; rfl
  · right
    obtain ⟨_, _, htubes⟩ := create_row_tube_frame im
      (record_pos (record_barcode st (py_strip row.barcode)) row) row
    refine ⟨mk_import_tube
      (resolve_sample im row
        (record_pos (record_barcode st (py_strip row.barcode)) row)).2.next_id
      (py_strip row.barcode)
      (resolve_sample im row
        (record_pos (record_barcode st (py_strip row.barcode)) row)).1
      (((record_pos (record_barcode st (py_strip row.barcode)) row).box_name_to_id.find?
        (fun p => p.1 == py_strip row.nom_boite)).map Prod.snd)
      row, ?_, rfl⟩
    rw [htubes, (record_pos_frame _ row).2.1]
    rfl

theorem run_rows_volume_eq (im : List (String × Nat)) :
    ∀ (rows : List Row) (st : ImportState),
      (∀ t ∈ st.tubes, t.current_volume = t.initial_volume) →
      ∀ t ∈ (run_rows im st rows).1.tubes, t.current_volume = t.initial_volume := by
  intro rows
  induction rows with
  | nil => intro st h; exact h
  | cons row rest ih =>
      intro st h
      show ∀ t ∈ (run_rows im (process_row im st row).1 rest).1.tubes,
        t.current_volume = t.initial_volume
      apply ih
      rcases process_row_tubes_sublist im st row with heq | ⟨t0, heq, hvol⟩
      · rw [heq]; exact h
      · rw [heq]
        intro t ht
        rcases List.mem_append.mp ht with hmem | hmem
        · exact h t hmem
        · rw [List.mem_singleton.mp hmem]
          exact hvol

theorem usage_lookup_tube_ok_some (db : DB) (o : Option Nat) (t0 : Tube)
    (h : usage_lookup_tube db o = Except.ok (some t0)) :
    ∃ tid, o = some tid ∧ tid ≠ 0 ∧ db.tubes.find? (fun z => z.id == tid) = some t0 := by
  rcases o with _ | tid
  · simp [usage_lookup_tube] at h
  · rw [show usage_lookup_tube db (some tid) =
      (if tid = 0 then Except.ok none
       else
        match db.tubes.find? (fun t => t.id == tid) with
        | some t => Except.ok (some t)
        | none => Except.error ApiError.NotFound) from rfl] at h
    split at h
    · simp at h
    · rename_i htid
      split at h
      · rename_i t1 hf
        refine ⟨tid, rfl, htid, ?_⟩
        obtain rfl : t1 = t0 := by
          have := congrArg (fun e => match e with
            | Except.ok (some z) => z
            | _ => t1) h
          simpa using this
        exact hf
      · cases h

/-- C4 (amended): the volume invariant is not validated by tube create or
update (see the counterexample), but the two operations the spec derives
it from do respect it: a successful create_usage keeps every tube
satisfying 0 ≤ current_volume ≤ initial_volume, and every tube an import
run creates has current_volume equal to initial_volume. -/
theorem volume_invariant_amended (db : DB) (today : DateVal) (req : UsageReq)
    (db2 : DB) (u : Usage)
    (hids : (db.tubes.map Tube.id).Nodup)
    (hok : create_usage db today req = Except.ok (db2, u))
    (hinv : ∀ t ∈ db.tubes, tube_volume_ok t = true) :
    (∀ t ∈ db2.tubes, tube_volume_ok t = true) ∧
    (∀ (im : List (String × Nat)) (rows : List Row),
       ∀ t ∈ (import_run im rows).1.tubes, t.current_volume = t.initial_volume) := by
  constructor
  · unfold create_usage at hok
    split at hok
    · cases hok
    · rename_i hbad
      split at hok
      · cases hok
      · rename_i tube? hlook
        split at hok
        · cases hok
        · rename_i hins
          split at hok
          · cases hok
          · rename_i d hd
            cases hok
            intro t ht
            dsimp only at ht
            rcases tube? with _ | t0
            · exact hinv t (by simpa [usage_decrement] using ht)
            rcases hvt : req.volume_taken with _ | v
            · rw [hvt] at ht
              exact hinv t (by simpa [usage_decrement] using ht)
            rw [hvt] at ht
            simp only [usage_decrement] at ht
            split at ht
            · rename_i hguard
              obtain ⟨x, hx, rfl⟩ := List.mem_map.mp ht
              by_cases hxid : (x.id == t0.id) = true
              · simp only [hxid, if_true]
                -- identify x with the checked tube t0
                obtain ⟨tid, hreqid, htid0, hfind⟩ :=
                  usage_lookup_tube_ok_some db req.tube_id t0 hlook
                have ht0mem : t0 ∈ db.tubes := List.mem_of_find?_eq_some hfind
                have hxt0 : x = t0 := by
                  have hinj := List.inj_on_of_nodup_map hids
                  exact hinj hx ht0mem (by simpa using hxid)
                subst hxt0
                rcases hguard with ⟨hv0, hcvs⟩
                obtain ⟨cv0, hcv0⟩ := Option.isSome_iff_exists.mp hcvs
                have hvpos : 0 < v := by
                  by_contra hle
                  push_neg at hle
                  simp [bad_volume_taken, hvt, hle] at hbad
                have hvle : v ≤ cv0 := by
                  by_contra hgt
                  push_neg at hgt
                  simp [usage_insufficient, hvt, hcv0, hv0] at hins
                  linarith
                have hx0 := hinv x hx
                simp only [tube_volume_ok, hcv0, Option.map_some] at *
                rcases hiv : x.initial_volume with _ | iv
                · simp
                · rw [hiv] at hx0
                  simp only [Option.map_some'] at *
                  simp only [decide_eq_true_eq] at hx0 ⊢
                  exact ⟨by linarith, by linarith [hx0.2]⟩
              · simp only [hxid, if_false, Bool.false_eq_true]
                exact hinv x hx
            · exact hinv t ht
  · intro im rows
    apply run_rows_volume_eq
    intro t ht
    simp [import_initial_state] at ht

/-- C4 counterexample: create_tube stores current_volume 200 over
initial_volume 100 without complaint, and an import row with volume text
-5 creates a tube whose stored volumes are both negative: the invariant
0 ≤ current_volume ≤ initial_volume does not hold in every reachable
state. -/
theorem volume_invariant_cex :
    (∃ db2 t, create_tube ⟨[], [], [], [], [], 1⟩
        ⟨"V1", none, none, none, none, none, none, some 100, some 200, none, none, none⟩ =
        Except.ok (db2, t) ∧ t.current_volume = some 200 ∧
        t.initial_volume = some 100 ∧ t ∈ db2.tubes ∧ tube_volume_ok t = false) ∧
    ((import_run [] [simple_row "N1" "" "" "" "-5"]).1.tubes.map
      (fun t => (t.current_volume, t.initial_volume)) = [(some (-5), some (-5))]) := by
  constructor
  · refine ⟨_, _, rfl, rfl, rfl, by simp, by norm_num [tube_volume_ok]⟩
  · decide

/-- Concrete result of withdrawing 4 µL from wDB, used by the C4
witness. -/
def wDBAfter : DB :=
  { individuals := [], samples := [],
    tubes := [{ wTube with current_volume := some 6 }], boxes := [],
    usages := [⟨2, some 1, none, some "u", some 0, none, some 4, none, none⟩],
    next_id := 3 }

/-- Witness for the amended C4: after the concrete 4 µL withdrawal every
tube still satisfies the volume invariant, and the import conjunct holds
for a concrete run. -/
theorem volume_invariant_amended_witness :
    (∀ t ∈ wDBAfter.tubes, tube_volume_ok t = true) ∧
    (∀ t ∈ (import_run [] [simple_row "X1" "B1" "1" "A" "50"]).1.tubes,
      t.current_volume = t.initial_volume) := by
  have h := volume_invariant_amended wDB 0 wUsageReq wDBAfter
    ⟨2, some 1, none, some "u", some 0, none, some 4, none, none⟩
    (by decide) (by norm_num [create_usage, bad_volume_taken, usage_lookup_tube,
      usage_insufficient, usage_date, usage_decrement, wDB, wUsageReq, wTube, wDBAfter])
    (by intro t ht; fin_cases ht; norm_num [tube_volume_ok, wTube])
  exact ⟨h.1, h.2 [] [simple_row "X1" "B1" "1" "A" "50"]⟩
